import Mathlib

/-!
Shallow embedding of the Modbus RTU driver and device wrapper of
`controller/DCconverter_controller.py` (classes `Rs485Driver` and
`DCConverter`), together with theorems settling the specification claims.

Modelling conventions:
* Bytes are `Nat` values below 256; byte strings are `List Nat`.
* Python `int` register values are `ℤ` (arbitrary precision, `&` on a
  negative operand behaves like `Int.emod` for a positive modulus).
* Serial input is modelled as the list of bytes that arrive within the
  read timeouts; `_read_exact n` returns `stream.take n` and subsequent
  reads continue on `stream.drop n`.
* A Python function that may raise is embedded as `Except RtuError _`
  (driver level) or `Except DCConverterError _` (wrapper level); the
  error constructors follow the spec taxonomy (configuration /
  communication / protocol), each carrying the message of the
  corresponding `raise` site of the source.
* Each driver operation also returns the list of frames it wrote to the
  serial port, so "performs no I/O" is expressible as that list being
  empty.
* Python floats are idealised as `ℚ`; `round` is `pyRound`
  (round-half-to-even, as Python's builtin `round`).
-/

/-- `crc16_modbus`, inner loop body: one shift step of the CRC register
(`if crc & 0x0001: crc = (crc >> 1) ^ 0xA001 else: crc >>= 1`). -/
def crcShift (crc : Nat) : Nat :=
  if crc &&& 0x0001 ≠ 0 then (crc >>> 1) ^^^ 0xA001 else crc >>> 1

/-- `for _ in range(8): ...` applied to `crcShift`. -/
def crcShifts : Nat → Nat → Nat
  | 0, crc => crc
  | n + 1, crc => crcShifts n (crcShift crc)

/-- `crc16_modbus(data)`: Modbus-RTU CRC16 (poly `0xA001`, init `0xFFFF`),
final `return crc & 0xFFFF`. -/
def crc16_modbus (data : List Nat) : Nat :=
  (data.foldl (fun crc b => crcShifts 8 (crc ^^^ b)) 0xFFFF) &&& 0xFFFF

/-- `Rs485Driver._write_frame`: appends the CRC of the payload, low byte
first (`bytes([crc & 0xFF, (crc >> 8) & 0xFF])`), giving the frame put on
the wire. -/
def writeFrame (payload_wo_crc : List Nat) : List Nat :=
  payload_wo_crc ++
    [crc16_modbus payload_wo_crc &&& 0xFF,
     (crc16_modbus payload_wo_crc >>> 8) &&& 0xFF]

/-- `split_u32_to_words_be(u32)`: raises `ValueError` (here: `none`)
unless `0 <= u32 <= 0xFFFFFFFF`, otherwise
`((u32 >> 16) & 0xFFFF, u32 & 0xFFFF)`. -/
def split_u32_to_words_be (u32 : ℤ) : Option (Nat × Nat) :=
  if 0 ≤ u32 ∧ u32 ≤ 0xFFFFFFFF then
    some ((u32.toNat >>> 16) &&& 0xFFFF, u32.toNat &&& 0xFFFF)
  else
    none

/-- `combine_words_to_u32_be(hi, lo)`:
`((hi & 0xFFFF) << 16) | (lo & 0xFFFF)`. -/
def combine_words_to_u32_be (hi lo : Nat) : Nat :=
  ((hi &&& 0xFFFF) <<< 16) ||| (lo &&& 0xFFFF)

/-- Register map constant `REG_CTL = 101`. -/
def REG_CTL : Nat := 101

/-- Register map constant `REG_RO_PWR_ON = 301`. -/
def REG_RO_PWR_ON : Nat := 301

/-- Register map constant `REG_RO_V_H = 302`. -/
def REG_RO_V_H : Nat := 302

/-- Register map constant `REG_RO_ALM_H = 306`. -/
def REG_RO_ALM_H : Nat := 306

/-- `struct.pack(">H", x)` for an in-range argument: big-endian 16-bit
encoding. -/
def u16be (x : Nat) : List Nat := [(x >>> 8) &&& 0xFF, x &&& 0xFF]

-- Arithmetic bridges for the bitwise operations of the source.

theorem and_0xFFFF (x : Nat) : x &&& 0xFFFF = x % 65536 := by
  have h : (0xFFFF : Nat) = 2 ^ 16 - 1 := by norm_num
  rw [h, Nat.and_pow_two_sub_one_eq_mod]

theorem and_0xFF (x : Nat) : x &&& 0xFF = x % 256 := by
  have h : (0xFF : Nat) = 2 ^ 8 - 1 := by norm_num
  rw [h, Nat.and_pow_two_sub_one_eq_mod]

theorem shiftRight16 (x : Nat) : x >>> 16 = x / 65536 := by
  rw [Nat.shiftRight_eq_div_pow]

theorem shiftRight8 (x : Nat) : x >>> 8 = x / 256 := by
  rw [Nat.shiftRight_eq_div_pow]

theorem combine_eq (hi lo : Nat) :
    combine_words_to_u32_be hi lo = hi % 65536 * 65536 + lo % 65536 := by
  unfold combine_words_to_u32_be
  rw [and_0xFFFF, and_0xFFFF, Nat.shiftLeft_eq, mul_comm]
  have hlt : lo % 65536 < 2 ^ 16 := by
    have h16 : (2 : Nat) ^ 16 = 65536 := by norm_num
    omega
  rw [← Nat.mul_add_lt_is_or hlt, mul_comm]

theorem split_eq (x : ℤ) (h0 : 0 ≤ x) (h1 : x ≤ 0xFFFFFFFF) :
    split_u32_to_words_be x = some (x.toNat / 65536, x.toNat % 65536) := by
  unfold split_u32_to_words_be
  rw [if_pos ⟨h0, h1⟩, shiftRight16, and_0xFFFF, and_0xFFFF]
  have hx : x.toNat < 4294967296 := by omega
  have hdiv : x.toNat / 65536 < 65536 := by omega
  rw [Nat.mod_eq_of_lt hdiv]

/-- Spec error taxonomy for the driver's `raise` sites (`ValueError` for
bounds → configuration, short response → communication, CRC/format
mismatch → protocol), carrying the source message. -/
inductive RtuError where
  | configuration (msg : String)
  | communication (msg : String)
  | protocol (msg : String)
  deriving DecidableEq, Repr

/-- Request frame of `Rs485Driver.read_holding_registers` (0x03):
`none` models the `ValueError` raised when `qty` is outside `1..30`,
otherwise the frame written by `_write_frame` for payload
`bytes([addr, 0x03]) + struct.pack(">HH", start_reg, qty)`. -/
def read_holding_request (addr start_reg qty : Nat) : Option (List Nat) :=
  if 1 ≤ qty ∧ qty ≤ 30 then
    some (writeFrame ([addr, 0x03] ++ u16be start_reg ++ u16be qty))
  else
    none

/-- Response handling of `read_holding_registers` after the request was
written: two `_read_exact` phases (3-byte header, then `bc + 2` bytes),
length / CRC / format checks, then big-endian word decoding. -/
def parse_read_response (addr qty : Nat) (stream : List Nat) :
    Except RtuError (List Nat) :=
  let head := stream.take 3
  if head.length < 3 then
    .ok []  -- `log_line "(no data)"; return []`
  else
    let bc := head.getD 2 0
    let rest := (stream.drop 3).take (bc + 2)
    if rest.length < bc + 2 then
      .error (.communication "응답 길이 부족")
    else
      let data := head ++ rest.take bc  -- `head + rest[:-2]`
      let rx_crc := rest.getD bc 0 ||| (rest.getD (bc + 1) 0 <<< 8)
      if crc16_modbus data ≠ rx_crc then
        .error (.protocol "CRC 불일치")
      else if head.getD 0 0 ≠ addr ∨ head.getD 1 0 ≠ 0x03 ∨ bc ≠ qty * 2 then
        .error (.protocol "응답 포맷 오류")
      else
        .ok ((List.range qty).map fun i =>
          (rest.getD (i * 2) 0 <<< 8) ||| rest.getD (i * 2 + 1) 0)

/-- `Rs485Driver.read_holding_registers(start_reg, qty)` as a function of
the serial input `stream`; the first component is the list of frames the
call wrote to the port. -/
def read_holding_registers (addr start_reg qty : Nat) (stream : List Nat) :
    List (List Nat) × Except RtuError (List Nat) :=
  match read_holding_request addr start_reg qty with
  | none => ([], .error (.configuration "0x03 읽기 개수는 1~30 범위로 제한됩니다."))
  | some f => ([f], parse_read_response addr qty stream)

/-- Request frame of `Rs485Driver.write_single_register` (0x06): payload
`bytes([addr, 0x06]) + struct.pack(">HH", reg, value & 0xFFFF)`; the
value is masked to 16 bits and no range check is performed (`Int.emod`
matches Python `&` on arbitrary, possibly negative, ints). -/
def write_single_request (addr reg : Nat) (value : ℤ) : List Nat :=
  writeFrame ([addr, 0x06] ++ u16be reg ++ u16be (value.emod 65536).toNat)

/-- 8-byte echo validation common to 0x06 / 0x10: length, CRC over
`resp[:-2]`, and `resp[0] == addr and resp[1] == fn`. -/
def check_echo_response (addr fn : Nat) (stream : List Nat) : Bool :=
  let resp := stream.take 8
  if resp.length < 8 then false
  else if crc16_modbus (resp.take 6) ≠
      (resp.getD 6 0 ||| (resp.getD 7 0 <<< 8)) then false
  else resp.getD 0 0 == addr && resp.getD 1 0 == fn

/-- `Rs485Driver.write_single_register(reg, value)`: writes one frame and
returns the success boolean; no code path raises. -/
def write_single_register (addr reg : Nat) (value : ℤ) (stream : List Nat) :
    List (List Nat) × Except RtuError Bool :=
  ([write_single_request addr reg value],
   .ok (check_echo_response addr 0x06 stream))

/-- Request frame of `Rs485Driver.write_multiple_registers` (0x10):
`none` models the `ValueError` when `len(values)` is outside `1..30`;
each value is encoded as `struct.pack(">H", v & 0xFFFF)`. -/
def write_multiple_request (addr start_reg : Nat) (values : List ℤ) :
    Option (List Nat) :=
  if 1 ≤ values.length ∧ values.length ≤ 30 then
    some (writeFrame ([addr, 0x10] ++ u16be start_reg ++ u16be values.length
      ++ [values.length * 2]
      ++ values.flatMap fun v => u16be (v.emod 65536).toNat))
  else
    none

/-- `Rs485Driver.write_multiple_registers(start_reg, values)`. -/
def write_multiple_registers (addr start_reg : Nat) (values : List ℤ)
    (stream : List Nat) : List (List Nat) × Except RtuError Bool :=
  match write_multiple_request addr start_reg values with
  | none => ([], .error (.configuration "0x10 쓰기 개수는 1~30 범위로 제한됩니다."))
  | some f => ([f], .ok (check_echo_response addr 0x10 stream))

/-- `Rs485Driver.read_vi()`: reads 4 registers at `REG_RO_V_H`, combines
0–1 into millivolts and 2–3 into milliamps, divides by `1000.0`
(idealised as exact rational division); `none` when fewer than 4
registers came back. -/
def drv_read_vi (addr : Nat) (stream : List Nat) :
    List (List Nat) × Except RtuError (Option (ℚ × ℚ)) :=
  match read_holding_registers addr REG_RO_V_H 4 stream with
  | (w, .error e) => (w, .error e)
  | (w, .ok regs) =>
    if regs.length ≠ 4 then (w, .ok none)
    else
      let v_raw := combine_words_to_u32_be (regs.getD 0 0) (regs.getD 1 0)
      let i_raw := combine_words_to_u32_be (regs.getD 2 0) (regs.getD 3 0)
      (w, .ok (some ((v_raw : ℚ) / 1000, (i_raw : ℚ) / 1000)))

/-- `Rs485Driver.read_alarm_mask()`: 2 registers at `REG_RO_ALM_H`
combined into one 32-bit mask. -/
def drv_read_alarm_mask (addr : Nat) (stream : List Nat) :
    List (List Nat) × Except RtuError (Option Nat) :=
  match read_holding_registers addr REG_RO_ALM_H 2 stream with
  | (w, .error e) => (w, .error e)
  | (w, .ok regs) =>
    if regs.length ≠ 2 then (w, .ok none)
    else (w, .ok (some (combine_words_to_u32_be (regs.getD 0 0) (regs.getD 1 0))))

/-- `Rs485Driver.read_power_on_flag()`: 1 register at `REG_RO_PWR_ON`,
`bool(regs[0])`. -/
def drv_read_power_on_flag (addr : Nat) (stream : List Nat) :
    List (List Nat) × Except RtuError (Option Bool) :=
  match read_holding_registers addr REG_RO_PWR_ON 1 stream with
  | (w, .error e) => (w, .error e)
  | (w, .ok regs) =>
    if regs.length ≠ 1 then (w, .ok none)
    else (w, .ok (some (regs.getD 0 0 ≠ 0)))

/-- Python's builtin `round` on an exact rational value:
round-half-to-even. -/
def pyRound (q : ℚ) : ℤ :=
  let f := Int.floor q
  let r := q - f
  if r < 1 / 2 then f
  else if 1 / 2 < r then f + 1
  else if f % 2 = 0 then f else f + 1

/-- Value list built by `Rs485Driver.set_vi_and_start`:
`[1, v_hi, v_lo, i_hi, i_lo]` from `round(volt_v*1000)` /
`round(curr_a*1000)`; `none` models the `ValueError` propagating from
`split_u32_to_words_be`. -/
def set_vi_and_start_vals (volt_v curr_a : ℚ) : Option (List ℤ) :=
  match split_u32_to_words_be (pyRound (volt_v * 1000)),
        split_u32_to_words_be (pyRound (curr_a * 1000)) with
  | some (v_hi, v_lo), some (i_hi, i_lo) =>
    some [1, (v_hi : ℤ), (v_lo : ℤ), (i_hi : ℤ), (i_lo : ℤ)]
  | _, _ => none

/-- `Rs485Driver.set_vi_and_start(volt_v, curr_a)`: one 0x10 write at
`REG_CTL`; a `ValueError` from the split happens before any I/O. -/
def set_vi_and_start (addr : Nat) (volt_v curr_a : ℚ) (stream : List Nat) :
    List (List Nat) × Except RtuError Bool :=
  match set_vi_and_start_vals volt_v curr_a with
  | none => ([], .error (.configuration "u32 범위 오류 (0~0xFFFFFFFF)"))
  | some vals => write_multiple_registers addr REG_CTL vals stream

/-- `Rs485Driver.stop_output()`: `write_single_register(REG_CTL, 0)`. -/
def drv_stop_output (addr : Nat) (stream : List Nat) :
    List (List Nat) × Except RtuError Bool :=
  write_single_register addr REG_CTL 0 stream

/-- `ALARM_BITS` as the insertion-ordered association list of the source
dict. -/
def ALARM_BITS : List (Nat × String) :=
  [(0, "Power failure"),
   (1, "Power protection"),
   (4, "Input undervoltage"),
   (5, "Input overvoltage"),
   (6, "Input phase loss"),
   (10, "Serious uneven flow"),
   (12, "Address duplication"),
   (13, "Output status (0:on,1:off)"),
   (14, "Power derating"),
   (15, "Temperature derating"),
   (16, "AC derating"),
   (17, "Output overvoltage"),
   (18, "Output undervoltage"),
   (19, "Output short"),
   (20, "Over temperature"),
   (21, "Low temperature")]

/-- `DCConverter.decode_alarms(alarm_mask)`: the comprehension
`[f"bit{b}: {ALARM_BITS.get(b)}" for b in ALARM_BITS if alarm_mask & (1 << b)]`
(the `.get` never misses since `b` ranges over the table's own keys). -/
def decode_alarms (alarm_mask : Nat) : List String :=
  (ALARM_BITS.filter fun p => alarm_mask &&& (1 <<< p.1) != 0).map
    fun p => "bit" ++ toString p.1 ++ ": " ++ p.2

/-- State of a `serial.Serial` handle as far as the wrapper inspects it
(`is_open`). -/
structure SerialHandle where
  is_open : Bool
  deriving DecidableEq, Repr

/-- State of an `Rs485Driver` instance: slave address and the `ser`
field (`None` until `open()`). -/
structure DriverState where
  addr : Nat
  ser : Option SerialHandle
  deriving DecidableEq, Repr

/-- State of a `DCConverter` instance: the `_drv` field. -/
structure DCState where
  drv : Option DriverState
  deriving DecidableEq, Repr

/-- The wrapper exception class `DCConverterError`; the payload is the
static part of the message of the raise site. -/
inductive DCConverterError where
  | mk (msg : String)
  deriving DecidableEq, Repr

/-- Message of `DCConverter._require_drv`'s raise site. -/
def notConnectedMsg : String :=
  "RS-485 포트가 열려 있지 않습니다. connect()를 먼저 호출하세요."

/-- `DCConverter._require_drv`: `none` models the raised
`DCConverterError` when `_drv is None or _drv.ser is None or not
_drv.ser.is_open`. -/
def require_drv (st : DCState) : Option DriverState :=
  match st.drv with
  | none => none
  | some d =>
    match d.ser with
    | none => none
    | some s => if s.is_open then some d else none

/-- The wrapper is `Disconnected`: no driver, serial handle absent, or
handle not open. -/
def Disconnected (st : DCState) : Prop :=
  match st.drv with
  | none => True
  | some d =>
    match d.ser with
    | none => True
    | some s => s.is_open = false

instance : (st : DCState) → Decidable (Disconnected st)
  | ⟨none⟩ => isTrue True.intro
  | ⟨some ⟨_, none⟩⟩ => isTrue True.intro
  | ⟨some ⟨_, some s⟩⟩ => inferInstanceAs (Decidable (s.is_open = false))

/-- `DCConverter.start_output(voltage_v, current_a)`: requires a
connected driver, then `set_vi_and_start`; driver exceptions are
re-raised as `DCConverterError`. -/
def dc_start_output (st : DCState) (voltage_v current_a : ℚ)
    (stream : List Nat) : List (List Nat) × Except DCConverterError Bool :=
  match require_drv st with
  | none => ([], .error (.mk notConnectedMsg))
  | some d =>
    match set_vi_and_start d.addr voltage_v current_a stream with
    | (w, .error _) =>
      (w, .error (.mk "장비에 V/I 설정 및 출력 ON 명령을 보내는 중 오류 발생"))
    | (w, .ok ok) => (w, .ok ok)

/-- `DCConverter.stop_output()`. -/
def dc_stop_output (st : DCState) (stream : List Nat) :
    List (List Nat) × Except DCConverterError Bool :=
  match require_drv st with
  | none => ([], .error (.mk notConnectedMsg))
  | some d =>
    match drv_stop_output d.addr stream with
    | (w, .error _) => (w, .error (.mk "장비에 출력 OFF 명령을 보내는 중 오류 발생"))
    | (w, .ok ok) => (w, .ok ok)

/-- `DCConverter.update_vi_while_running`: delegates to `start_output`. -/
def dc_update_vi_while_running (st : DCState) (voltage_v current_a : ℚ)
    (stream : List Nat) : List (List Nat) × Except DCConverterError Bool :=
  dc_start_output st voltage_v current_a stream

/-- `DCConverter.read_vi()`: raises on driver exception and on a `None`
result. -/
def dc_read_vi (st : DCState) (stream : List Nat) :
    List (List Nat) × Except DCConverterError (ℚ × ℚ) :=
  match require_drv st with
  | none => ([], .error (.mk notConnectedMsg))
  | some d =>
    match drv_read_vi d.addr stream with
    | (w, .error _) => (w, .error (.mk "장비에서 V/I 데이터를 읽는 중 오류 발생"))
    | (w, .ok none) =>
      (w, .error (.mk "V/I 데이터를 읽지 못했습니다 (응답 없음 또는 CRC 오류)."))
    | (w, .ok (some vi)) => (w, .ok vi)

/-- `DCConverter.read_alarm_mask()`. -/
def dc_read_alarm_mask (st : DCState) (stream : List Nat) :
    List (List Nat) × Except DCConverterError Nat :=
  match require_drv st with
  | none => ([], .error (.mk notConnectedMsg))
  | some d =>
    match drv_read_alarm_mask d.addr stream with
    | (w, .error _) => (w, .error (.mk "장비에서 알람 상태를 읽는 중 오류 발생"))
    | (w, .ok none) =>
      (w, .error (.mk "알람 상태를 읽지 못했습니다 (응답 없음 또는 CRC 오류)."))
    | (w, .ok (some mask)) => (w, .ok mask)

/-- The `DCStatus` dataclass. -/
structure DCStatus where
  power_on : Bool
  voltage_v : ℚ
  current_a : ℚ
  alarm_mask : Nat
  active_alarms : List String
  deriving DecidableEq, Repr

/-- `DCConverter.read_status()`: three sequential reads (power flag,
V/I, alarm mask), each on its own response stream; a failed sub-read is
re-raised naming its register block, a `None` result is substituted by
`False`/zeros. -/
def dc_read_status (st : DCState) (s1 s2 s3 : List Nat) :
    List (List Nat) × Except DCConverterError DCStatus :=
  match require_drv st with
  | none => ([], .error (.mk notConnectedMsg))
  | some d =>
    match drv_read_power_on_flag d.addr s1 with
    | (w1, .error _) => (w1, .error (.mk "전원 상태(레지스터 301) 읽기 실패"))
    | (w1, .ok pf) =>
      let power_on := pf.getD false
      match drv_read_vi d.addr s2 with
      | (w2, .error _) => (w1 ++ w2, .error (.mk "V/I(302~305) 읽기 실패"))
      | (w2, .ok vi) =>
        let v := (vi.getD (0, 0)).1
        let i := (vi.getD (0, 0)).2
        match drv_read_alarm_mask d.addr s3 with
        | (w3, .error _) => (w1 ++ w2 ++ w3, .error (.mk "알람 상태(306~307) 읽기 실패"))
        | (w3, .ok m) =>
          let alarm_mask := m.getD 0
          (w1 ++ w2 ++ w3,
           .ok ⟨power_on, v, i, alarm_mask, decode_alarms alarm_mask⟩)

/-!  Theorems settling the claims. -/

set_option maxRecDepth 40000

/-- C1: `crc16_modbus` computes the Modbus CRC16 (init `0xFFFF`, poly
`0xA001`) and matches the reference vector: on
`[0x01, 0x03, 0x00, 0x00, 0x00, 0x0A]` it returns `0xCDC5`, whose low
byte is `0xC5` and high byte `0xCD`; and `_write_frame` appends the CRC
of any payload to the frame low byte first. -/
theorem crc16_reference_vector_and_low_first :
    crc16_modbus [0x01, 0x03, 0x00, 0x00, 0x00, 0x0A] = 0xCDC5 ∧
    crc16_modbus [0x01, 0x03, 0x00, 0x00, 0x00, 0x0A] % 256 = 0xC5 ∧
    crc16_modbus [0x01, 0x03, 0x00, 0x00, 0x00, 0x0A] / 256 = 0xCD ∧
    (∀ payload : List Nat, writeFrame payload =
      payload ++ [crc16_modbus payload % 256, crc16_modbus payload / 256 % 256]) := by
  refine ⟨by decide, by decide, by decide, fun payload => ?_⟩
  unfold writeFrame
  rw [and_0xFF, and_0xFF, shiftRight8]

/-- C4: for every `x` in `[0, 0xFFFFFFFF]`,
`combine_words_to_u32_be (split_u32_to_words_be x) = x`, and
`split_u32_to_words_be` fails (raises `ValueError`, here `none`) on every
input outside that range. -/
theorem split_combine_roundtrip (x y : ℤ) (hx0 : 0 ≤ x)
    (hx1 : x ≤ 0xFFFFFFFF) (hy : y < 0 ∨ 0xFFFFFFFF < y) :
    (∃ hi lo, split_u32_to_words_be x = some (hi, lo) ∧
      (combine_words_to_u32_be hi lo : ℤ) = x) ∧
    split_u32_to_words_be y = none := by
  constructor
  · refine ⟨x.toNat / 65536, x.toNat % 65536, split_eq x hx0 hx1, ?_⟩
    rw [combine_eq]
    have hx : x.toNat < 4294967296 := by omega
    push_cast
    omega
  · unfold split_u32_to_words_be
    rw [if_neg]
    omega

/-- Witness for C4 at the docstring's example `0x00061A80` and at `-1`. -/
theorem split_combine_roundtrip_witness :
    ((∃ hi lo, split_u32_to_words_be 0x00061A80 = some (hi, lo) ∧
        (combine_words_to_u32_be hi lo : ℤ) = 0x00061A80) ∧
      split_u32_to_words_be (-1) = none) ∧
    ((∃ hi lo, split_u32_to_words_be 0 = some (hi, lo) ∧
        (combine_words_to_u32_be hi lo : ℤ) = 0) ∧
      split_u32_to_words_be 0x100000000 = none) :=
  ⟨split_combine_roundtrip 0x00061A80 (-1) (by decide) (by decide)
      (Or.inl (by decide)),
   split_combine_roundtrip 0 0x100000000 (by decide) (by decide)
      (Or.inr (by decide))⟩

/-- C7: `read_holding_registers` fails with a `ConfigurationError`
before any I/O for every `qty` outside `[1, 30]`, and
`write_multiple_registers` does likewise for every value list whose
length is outside `[1, 30]`. -/
theorem register_count_bounds (addr start_reg qty : Nat) (values : List ℤ)
    (stream : List Nat) (hq : qty < 1 ∨ 30 < qty)
    (hv : values.length < 1 ∨ 30 < values.length) :
    read_holding_registers addr start_reg qty stream =
      ([], .error (.configuration "0x03 읽기 개수는 1~30 범위로 제한됩니다.")) ∧
    write_multiple_registers addr start_reg values stream =
      ([], .error (.configuration "0x10 쓰기 개수는 1~30 범위로 제한됩니다.")) := by
  constructor
  · unfold read_holding_registers read_holding_request
    rw [if_neg (by omega)]
  · unfold write_multiple_registers write_multiple_request
    rw [if_neg (by omega)]

/-- Witness for C7 at `qty = 0`, `qty = 31`, `values = []` and a 31-value
list. -/
theorem register_count_bounds_witness :
    (read_holding_registers 1 302 0 [] =
        ([], .error (.configuration "0x03 읽기 개수는 1~30 범위로 제한됩니다.")) ∧
      write_multiple_registers 1 101 [] [] =
        ([], .error (.configuration "0x10 쓰기 개수는 1~30 범위로 제한됩니다."))) ∧
    (read_holding_registers 1 302 31 [] =
        ([], .error (.configuration "0x03 읽기 개수는 1~30 범위로 제한됩니다.")) ∧
      write_multiple_registers 1 101 (List.replicate 31 (0 : ℤ)) [] =
        ([], .error (.configuration "0x10 쓰기 개수는 1~30 범위로 제한됩니다."))) :=
  ⟨register_count_bounds 1 302 0 [] [] (Or.inl (by decide)) (Or.inl (by decide)),
   register_count_bounds 1 302 31 (List.replicate 31 (0 : ℤ)) []
     (Or.inr (by decide)) (Or.inr (by simp))⟩

theorem emod_65536_idem (v : ℤ) : (v.emod 65536).emod 65536 = v.emod 65536 :=
  Int.emod_emod_of_dvd v dvd_rfl

/-- C10: the write operations never reject an out-of-range register
value: the request frame is the one obtained after reducing every value
mod `2^16` (`value & 0xFFFF`), for negative values included, and for
`write_multiple_registers` the `1..30` length bound is the only argument
check (`isSome` of the request depends on nothing else). -/
theorem write_value_truncation :
    (∀ (addr reg : Nat) (value : ℤ), write_single_request addr reg value =
        write_single_request addr reg (value.emod 65536)) ∧
    (∀ (addr reg : Nat) (value : ℤ), write_single_request addr reg value =
        writeFrame ([addr, 0x06] ++ u16be reg ++
          u16be (value.emod 65536).toNat)) ∧
    (∀ (addr start_reg : Nat) (values : List ℤ),
        (write_multiple_request addr start_reg values).isSome ↔
          1 ≤ values.length ∧ values.length ≤ 30) ∧
    (∀ (addr start_reg : Nat) (values : List ℤ),
        write_multiple_request addr start_reg values =
          write_multiple_request addr start_reg
            (values.map fun v => v.emod 65536)) := by
  refine ⟨fun addr reg value => ?_, fun addr reg value => rfl,
    fun addr start_reg values => ?_, fun addr start_reg values => ?_⟩
  · unfold write_single_request
    rw [emod_65536_idem]
  · unfold write_multiple_request
    split
    · simpa using And.intro (by omega) (by omega)
    · simp only [Option.isSome_none, Bool.false_eq_true, false_iff]
      omega
  · unfold write_multiple_request
    simp only [List.length_map, List.flatMap_map, Function.comp, emod_65536_idem]

-- Helper lemmas shared by the claim theorems.

theorem read_holding_snd (addr start_reg qty : Nat) (stream : List Nat)
    (h : 1 ≤ qty ∧ qty ≤ 30) :
    read_holding_registers addr start_reg qty stream =
      ([writeFrame ([addr, 0x03] ++ u16be start_reg ++ u16be qty)],
        parse_read_response addr qty stream) := by
  unfold read_holding_registers read_holding_request
  rw [if_pos h]

theorem parse_read_response_full (addr qty : Nat) (head rest : List Nat)
    (hh : head.length = 3) (hr : rest.length = head.getD 2 0 + 2) :
    parse_read_response addr qty (head ++ rest) =
      (if crc16_modbus (head ++ rest.take (head.getD 2 0)) ≠
          (rest.getD (head.getD 2 0) 0 ||| (rest.getD (head.getD 2 0 + 1) 0 <<< 8)) then
        .error (.protocol "CRC 불일치")
      else if head.getD 0 0 ≠ addr ∨ head.getD 1 0 ≠ 0x03 ∨
          head.getD 2 0 ≠ qty * 2 then
        .error (.protocol "응답 포맷 오류")
      else
        .ok ((List.range qty).map fun i =>
          (rest.getD (i * 2) 0 <<< 8) ||| rest.getD (i * 2 + 1) 0)) := by
  have htake : rest.take (head.getD 2 0 + 2) = rest := by
    rw [← hr]; exact rest.take_length
  simp only [parse_read_response, List.take_left' hh, List.drop_left' hh, htake]
  rw [if_neg (by omega), if_neg (by omega)]

theorem check_echo_false (addr fn : Nat) (resp : List Nat)
    (hresp : resp.length = 8)
    (hcrc : crc16_modbus (resp.take 6) ≠
      (resp.getD 6 0 ||| (resp.getD 7 0 <<< 8))) :
    check_echo_response addr fn resp = false := by
  have ht : resp.take 8 = resp := List.take_of_length_le (by omega)
  simp only [check_echo_response, ht]
  rw [if_neg (by omega), if_pos hcrc]

theorem require_drv_none (st : DCState) (hd : Disconnected st) :
    require_drv st = none := by
  obtain ⟨drv⟩ := st
  cases drv with
  | none => rfl
  | some d =>
    obtain ⟨addr, ser⟩ := d
    cases ser with
    | none => rfl
    | some sh =>
      obtain ⟨o⟩ := sh
      have ho : o = false := hd
      subst ho
      rfl

theorem pyRound_intCast (n : ℤ) : pyRound (n : ℚ) = n := by
  unfold pyRound
  rw [Int.floor_intCast]
  norm_num

/-- C2 (amended): on a completely received response whose trailing two
CRC bytes do not equal the CRC16 of all preceding response bytes,
`read_holding_registers` raises the CRC-mismatch `ProtocolError`, while
`write_single_register` and `write_multiple_registers` return the
failure result `False` (not a raised error); in no case is a register
value or a success result decoded from the corrupted frame. -/
theorem crc_mismatch_no_success
    (addr start_reg qty reg : Nat) (value : ℤ) (values : List ℤ)
    (head rest resp : List Nat)
    (hq1 : 1 ≤ qty) (hq2 : qty ≤ 30)
    (hh : head.length = 3) (hr : rest.length = head.getD 2 0 + 2)
    (hcrc : crc16_modbus (head ++ rest.take (head.getD 2 0)) ≠
      (rest.getD (head.getD 2 0) 0 ||| (rest.getD (head.getD 2 0 + 1) 0 <<< 8)))
    (hresp : resp.length = 8)
    (hcrc2 : crc16_modbus (resp.take 6) ≠
      (resp.getD 6 0 ||| (resp.getD 7 0 <<< 8)))
    (hv1 : 1 ≤ values.length) (hv2 : values.length ≤ 30) :
    (read_holding_registers addr start_reg qty (head ++ rest)).2 =
      .error (.protocol "CRC 불일치") ∧
    (write_single_register addr reg value resp).2 = .ok false ∧
    (write_multiple_registers addr start_reg values resp).2 = .ok false := by
  refine ⟨?_, ?_, ?_⟩
  · rw [read_holding_snd addr start_reg qty (head ++ rest) ⟨hq1, hq2⟩]
    show parse_read_response addr qty (head ++ rest) = _
    rw [parse_read_response_full addr qty head rest hh hr, if_pos hcrc]
  · show Except.ok (check_echo_response addr 0x06 resp) = Except.ok false
    rw [check_echo_false addr 0x06 resp hresp hcrc2]
  · unfold write_multiple_registers write_multiple_request
    rw [if_pos ⟨hv1, hv2⟩]
    show Except.ok (check_echo_response addr 0x10 resp) = Except.ok false
    rw [check_echo_false addr 0x10 resp hresp hcrc2]

/-- Witness for the amended C2: a 0x03 response for `qty = 4` with its
CRC bytes zeroed, and a 0x06/0x10 echo with its CRC bytes zeroed. -/
theorem crc_mismatch_no_success_witness :
    (read_holding_registers 1 302 4
        ([1, 3, 8] ++ [0, 0, 46, 224, 0, 0, 39, 16, 0, 0])).2 =
      .error (.protocol "CRC 불일치") ∧
    (write_single_register 1 101 0 [1, 6, 0, 101, 0, 0, 0, 0]).2 = .ok false ∧
    (write_multiple_registers 1 302 [(0 : ℤ)] [1, 6, 0, 101, 0, 0, 0, 0]).2 =
      .ok false :=
  crc_mismatch_no_success 1 302 4 101 0 [(0 : ℤ)]
    [1, 3, 8] [0, 0, 46, 224, 0, 0, 39, 16, 0, 0] [1, 6, 0, 101, 0, 0, 0, 0]
    (by decide) (by decide) (by decide) (by decide) (by decide)
    (by decide) (by decide) (by decide) (by decide)

/-- C2 counterexample to the claim as stated: on an echo response whose
trailing CRC bytes (zero) do not match the CRC16 of the preceding six
bytes, `write_single_register` returns the ordinary result `False`; it
does not fail with a `ProtocolError` (no error of any kind is raised). -/
theorem crc_mismatch_claim_counterexample :
    crc16_modbus [1, 6, 0, 101, 0, 0] ≠ 0 ∧
    (write_single_register 1 101 0 [1, 6, 0, 101, 0, 0, 0, 0]).2 = .ok false ∧
    (∀ e : RtuError,
      (write_single_register 1 101 0 [1, 6, 0, 101, 0, 0, 0, 0]).2 ≠ .error e) :=
  ⟨by decide, rfl, fun _ h => nomatch h⟩

/-- C3 (amended): a header phase yielding fewer than 3 bytes makes
`read_holding_registers` return the empty register list as a normal
result (the source logs `(no data)` and returns `[]`), not a
`CommunicationError`; only the remainder phase yielding fewer than
`byte_count + 2` bytes raises the `CommunicationError`. -/
theorem short_read_phases (addr start_reg qty : Nat)
    (stream head rest : List Nat)
    (hq1 : 1 ≤ qty) (hq2 : qty ≤ 30)
    (hshort : stream.length < 3)
    (hh : head.length = 3) (hr : rest.length < head.getD 2 0 + 2) :
    (read_holding_registers addr start_reg qty stream).2 = .ok [] ∧
    (read_holding_registers addr start_reg qty (head ++ rest)).2 =
      .error (.communication "응답 길이 부족") := by
  constructor
  · rw [read_holding_snd addr start_reg qty stream ⟨hq1, hq2⟩]
    show parse_read_response addr qty stream = _
    simp only [parse_read_response, List.length_take]
    rw [if_pos (by omega)]
  · rw [read_holding_snd addr start_reg qty (head ++ rest) ⟨hq1, hq2⟩]
    show parse_read_response addr qty (head ++ rest) = _
    have htake : rest.take (head.getD 2 0 + 2) = rest :=
      List.take_of_length_le (by omega)
    simp only [parse_read_response, List.take_left' hh, List.drop_left' hh, htake]
    rw [if_neg (by omega), if_pos hr]

/-- Witness for the amended C3: a 2-byte stream for the header phase and
a complete header `[1, 3, 8]` followed by an empty remainder. -/
theorem short_read_phases_witness :
    (read_holding_registers 1 302 4 [1, 3]).2 = .ok [] ∧
    (read_holding_registers 1 302 4 ([1, 3, 8] ++ [])).2 =
      .error (.communication "응답 길이 부족") :=
  short_read_phases 1 302 4 [1, 3] [1, 3, 8] []
    (by decide) (by decide) (by decide) (by decide) (by decide)

/-- C3 counterexample to the claim as stated: when the header phase
yields only 2 of the 3 requested bytes, `read_holding_registers` returns
the normal (non-error) result `[]`; it does not fail with a
`CommunicationError`. -/
theorem short_header_claim_counterexample :
    (read_holding_registers 1 302 4 [1, 3]).2 = .ok [] ∧
    (∀ e : RtuError, (read_holding_registers 1 302 4 [1, 3]).2 ≠ .error e) :=
  ⟨rfl, fun _ h => nomatch h⟩

/-- C5: `set_vi_and_start` (the driver half of `start_output`) rounds
volts and amps to integer milli-units, splits each into big-endian hi/lo
16-bit words, and issues exactly one `write_multiple_registers` call at
the control register with the ordered values `[1, V_hi, V_lo, I_hi,
I_lo]`; concretely, for 48.0 V / 10.0 A the call is on register 101 with
values `[1, 0, 48000, 0, 10000]`. -/
theorem start_output_request (volt_v curr_a : ℚ)
    (hv0 : 0 ≤ pyRound (volt_v * 1000))
    (hv1 : pyRound (volt_v * 1000) ≤ 0xFFFFFFFF)
    (hi0 : 0 ≤ pyRound (curr_a * 1000))
    (hi1 : pyRound (curr_a * 1000) ≤ 0xFFFFFFFF) :
    set_vi_and_start_vals volt_v curr_a =
      some [1, (((pyRound (volt_v * 1000)).toNat / 65536 : Nat) : ℤ),
            (((pyRound (volt_v * 1000)).toNat % 65536 : Nat) : ℤ),
            (((pyRound (curr_a * 1000)).toNat / 65536 : Nat) : ℤ),
            (((pyRound (curr_a * 1000)).toNat % 65536 : Nat) : ℤ)] ∧
    set_vi_and_start_vals 48 10 = some [1, 0, 48000, 0, 10000] ∧
    (∀ (addr : Nat) (stream : List Nat),
      set_vi_and_start addr 48 10 stream =
        write_multiple_registers addr REG_CTL [1, 0, 48000, 0, 10000] stream) ∧
    (∀ (addr : Nat) (stream : List Nat),
      ((set_vi_and_start addr 48 10 stream).1).length = 1) := by
  have hconc : set_vi_and_start_vals 48 10 = some [1, 0, 48000, 0, 10000] := by
    have hv : (48 : ℚ) * 1000 = ((48000 : ℤ) : ℚ) := by norm_num
    have hi : (10 : ℚ) * 1000 = ((10000 : ℤ) : ℚ) := by norm_num
    unfold set_vi_and_start_vals
    rw [hv, hi, pyRound_intCast, pyRound_intCast]
    rfl
  refine ⟨?_, hconc, fun addr stream => ?_, fun addr stream => ?_⟩
  · unfold set_vi_and_start_vals
    rw [split_eq _ hv0 hv1, split_eq _ hi0 hi1]
  · unfold set_vi_and_start
    rw [hconc]
  · unfold set_vi_and_start
    rw [hconc]
    show ((write_multiple_registers addr REG_CTL
      [1, 0, 48000, 0, 10000] stream).1).length = 1
    unfold write_multiple_registers write_multiple_request
    rw [if_pos (show 1 ≤ ([1, 0, 48000, 0, 10000] : List ℤ).length ∧
      ([1, 0, 48000, 0, 10000] : List ℤ).length ≤ 30 from by decide)]
    rfl

/-- Witness for C5 at 48.0 V / 10.0 A. -/
theorem start_output_request_witness :
    (set_vi_and_start_vals 48 10 =
      some [1, (((pyRound ((48 : ℚ) * 1000)).toNat / 65536 : Nat) : ℤ),
            (((pyRound ((48 : ℚ) * 1000)).toNat % 65536 : Nat) : ℤ),
            (((pyRound ((10 : ℚ) * 1000)).toNat / 65536 : Nat) : ℤ),
            (((pyRound ((10 : ℚ) * 1000)).toNat % 65536 : Nat) : ℤ)]) ∧
    set_vi_and_start_vals 48 10 = some [1, 0, 48000, 0, 10000] ∧
    (∀ (addr : Nat) (stream : List Nat),
      set_vi_and_start addr 48 10 stream =
        write_multiple_registers addr REG_CTL [1, 0, 48000, 0, 10000] stream) ∧
    (∀ (addr : Nat) (stream : List Nat),
      ((set_vi_and_start addr 48 10 stream).1).length = 1) := by
  have h48 : pyRound ((48 : ℚ) * 1000) = 48000 := by
    rw [show (48 : ℚ) * 1000 = ((48000 : ℤ) : ℚ) from by norm_num, pyRound_intCast]
  have h10 : pyRound ((10 : ℚ) * 1000) = 10000 := by
    rw [show (10 : ℚ) * 1000 = ((10000 : ℤ) : ℚ) from by norm_num, pyRound_intCast]
  exact start_output_request 48 10 (by rw [h48]; decide) (by rw [h48]; decide)
    (by rw [h10]; decide) (by rw [h10]; decide)

/-- C6: `read_vi` decodes the well-formed 0x03 response for `qty = 4`
with data words `[0x0000, 0x2EE0, 0x0000, 0x2710]` to 12.0 V and 10.0 A
(registers 0–1 as millivolts, 2–3 as milliamps, each divided by 1000.0),
and returns `None` whenever the register read yields fewer than 4
registers. -/
theorem read_vi_decoding (addr : Nat) (s : List Nat) (w : List (List Nat))
    (regs : List Nat)
    (hrw : read_holding_registers addr REG_RO_V_H 4 s = (w, .ok regs))
    (hlen : regs.length < 4) :
    drv_read_vi addr s = (w, .ok none) ∧
    (drv_read_vi 1 [1, 3, 8, 0, 0, 46, 224, 0, 0, 39, 16, 8, 115]).2 =
      .ok (some ((12 : ℚ), (10 : ℚ))) := by
  constructor
  · have hne : regs.length ≠ 4 := Nat.ne_of_lt hlen
    unfold drv_read_vi
    rw [hrw]
    simp [hne]
  · have hregs : read_holding_registers 1 REG_RO_V_H 4
        [1, 3, 8, 0, 0, 46, 224, 0, 0, 39, 16, 8, 115] =
        ([[1, 3, 1, 46, 0, 4, 37, 252]], .ok [0, 12000, 0, 10000]) := rfl
    unfold drv_read_vi
    rw [hregs]
    simp [combine_words_to_u32_be]
    norm_num [and_0xFFFF]

/-- Witness for C6: a short header stream yields 0 registers and a
`None` V/I result. -/
theorem read_vi_decoding_witness :
    drv_read_vi 1 [1, 3] = ([[1, 3, 1, 46, 0, 4, 37, 252]], .ok none) ∧
    (drv_read_vi 1 [1, 3, 8, 0, 0, 46, 224, 0, 0, 39, 16, 8, 115]).2 =
      .ok (some ((12 : ℚ), (10 : ℚ))) :=
  read_vi_decoding 1 [1, 3] [[1, 3, 1, 46, 0, 4, 37, 252]] [] rfl (by decide)

/-- C8: every control/read operation of the `DCConverter` wrapper
(`start_output`, `stop_output`, `update_vi_while_running`, `read_vi`,
`read_alarm_mask`, `read_status`) called while the wrapper is
disconnected (no driver, serial handle absent, or handle closed) fails
immediately with the `DCConverterError` of `_require_drv` and writes no
frame to the serial port. -/
theorem disconnected_operations_fail (st : DCState) (v i : ℚ)
    (s s2 s3 : List Nat) (hd : Disconnected st) :
    dc_start_output st v i s = ([], .error (.mk notConnectedMsg)) ∧
    dc_stop_output st s = ([], .error (.mk notConnectedMsg)) ∧
    dc_update_vi_while_running st v i s = ([], .error (.mk notConnectedMsg)) ∧
    dc_read_vi st s = ([], .error (.mk notConnectedMsg)) ∧
    dc_read_alarm_mask st s = ([], .error (.mk notConnectedMsg)) ∧
    dc_read_status st s s2 s3 = ([], .error (.mk notConnectedMsg)) := by
  have hreq : require_drv st = none := require_drv_none st hd
  refine ⟨?_, ?_, ?_, ?_, ?_, ?_⟩
  · unfold dc_start_output
    rw [hreq]
  · unfold dc_stop_output
    rw [hreq]
  · unfold dc_update_vi_while_running dc_start_output
    rw [hreq]
  · unfold dc_read_vi
    rw [hreq]
  · unfold dc_read_alarm_mask
    rw [hreq]
  · unfold dc_read_status
    rw [hreq]

/-- Witness for C8: the freshly constructed wrapper state (`_drv is
None`). -/
theorem disconnected_operations_fail_witness :
    dc_start_output ⟨none⟩ 48 10 [] = ([], .error (.mk notConnectedMsg)) ∧
    dc_stop_output ⟨none⟩ [] = ([], .error (.mk notConnectedMsg)) ∧
    dc_update_vi_while_running ⟨none⟩ 48 10 [] =
      ([], .error (.mk notConnectedMsg)) ∧
    dc_read_vi ⟨none⟩ [] = ([], .error (.mk notConnectedMsg)) ∧
    dc_read_alarm_mask ⟨none⟩ [] = ([], .error (.mk notConnectedMsg)) ∧
    dc_read_status ⟨none⟩ [] [] [] = ([], .error (.mk notConnectedMsg)) :=
  disconnected_operations_fail ⟨none⟩ 48 10 [] [] [] True.intro

/-- C9: `decode_alarms` is a pure function returning, in ascending bit
order, one string `"bit{N}: {description}"` for each set bit of the mask
with a known alarm-table description; for the mask with exactly bits 0
and 17 set it returns exactly the two entries for "Power failure" and
"Output overvoltage", in that order. The second conjunct characterises
the source's `mask & (1 << b)` test as `Nat.testBit`, and the third
states that the table's keys (the iteration order) are strictly
ascending. -/
theorem decode_alarms_ordered :
    decode_alarms (2 ^ 0 + 2 ^ 17) =
      ["bit0: Power failure", "bit17: Output overvoltage"] ∧
    (∀ mask : Nat, decode_alarms mask =
      (ALARM_BITS.filter fun p => mask.testBit p.1).map
        fun p => "bit" ++ toString p.1 ++ ": " ++ p.2) ∧
    List.Pairwise (· < ·) (ALARM_BITS.map Prod.fst) := by
  refine ⟨by decide, fun mask => ?_, by decide⟩
  unfold decode_alarms
  congr 1
  apply List.filter_congr
  intro p _
  rw [Nat.one_shiftLeft, Nat.and_two_pow]
  cases h : mask.testBit p.1 <;> simp [h]
